import Mathlib

/-!
Shallow embedding of the flash-call SDK (src/src/flash_call/__init__.py).

The Python module holds two module-level globals (`_integration_key`,
`_user`), a configuration function `set_key`, accessors `get_key` /
`get_user`, and two push operations `push_alert` / `push_alert_async`
that resolve an effective key, build a JSON payload, POST it to a fixed
URL and decode the response.

The embedding makes the globals an explicit `SdkState` value threaded
through every operation, and makes the network explicit: a push
operation receives the transport's response as a value (a transport
double) and returns, besides its result, the list of HTTP requests it
issued (the network trace) and the state it leaves behind.
-/

namespace FlashCall

/-- JSON values, used for payload fields and decoded response bodies.
Objects keep insertion order, matching Python dicts. -/
inductive Json where
  | null : Json
  | bool : Bool → Json
  | num : Int → Json
  | str : String → Json
  | arr : List Json → Json
  | obj : List (String × Json) → Json

/-- Alert status. Source: `EventStatus = Literal["Critical", "Warning", "Info", "Ok"]`. -/
inductive EventStatus where
  | Critical : EventStatus
  | Warning : EventStatus
  | Info : EventStatus
  | Ok : EventStatus
deriving DecidableEq

/-- The string carried on the wire for an `EventStatus` (in Python the
status already is that string). -/
def EventStatus.wire : EventStatus → String
  | .Critical => "Critical"
  | .Warning => "Warning"
  | .Info => "Info"
  | .Ok => "Ok"

/-- The two module-level globals: `_integration_key` and `_user`. -/
structure SdkState where
  integration_key : Option String
  user : Option String
deriving DecidableEq

/-- Source line 50: the fixed endpoint URL. -/
def BASE_URL : String := "https://api.flashcat.cloud/event/push/alert/standard"

/-- Source lines 53-65: `set_key(key, user=None)` overwrites both globals
unconditionally. Calling it "with key only" is passing `none` for `user`. -/
def set_key (key : String) (user : Option String) (_s : SdkState) : SdkState :=
  { integration_key := some key, user := user }

/-- Source lines 68-74: `get_key()`. -/
def get_key (s : SdkState) : Option String := s.integration_key

/-- Source lines 77-83: `get_user()`. -/
def get_user (s : SdkState) : Option String := s.user

/-- Python `a or b` on two `Optional[str]` values: `a` when `a` is truthy
(not `None` and not `""`), else `b`. Source line 128:
`key = integration_key or _integration_key`. -/
def pyOrKey (a b : Option String) : Option String :=
  match a with
  | none => b
  | some k => if k = "" then b else some k

/-- Source lines 133-134: `if _user is not None: title_rule = f"{_user} {title_rule}"`. -/
def applyUser (user : Option String) (title_rule : String) : String :=
  match user with
  | some u => u ++ " " ++ title_rule
  | none => title_rule

/-- Source lines 137-149: build the payload dict. Required fields first,
then each optional field only when the argument `is not None`. Labels
come in as a `Dict[str, str]`; images are caller-supplied dicts that the
SDK passes through opaquely, so they are modelled as `Json` values. -/
def buildPayload (title_rule : String) (event_status : EventStatus)
    (alert_key : Option String) (description : Option String)
    (labels : Option (List (String × String))) (images : Option (List Json)) :
    List (String × Json) :=
  [("title_rule", Json.str title_rule), ("event_status", Json.str event_status.wire)]
    ++ (match alert_key with
        | some a => [("alert_key", Json.str a)]
        | none => [])
    ++ (match description with
        | some d => [("description", Json.str d)]
        | none => [])
    ++ (match labels with
        | some l => [("labels", Json.obj (l.map (fun p => (p.1, Json.str p.2))))]
        | none => [])
    ++ (match images with
        | some imgs => [("images", Json.arr imgs)]
        | none => [])

/-- One HTTP request as issued by the source's `client.post(...)` call:
fixed URL, query parameters, headers, JSON body. -/
structure Request where
  url : String
  params : List (String × String)
  headers : List (String × String)
  body : List (String × Json)

/-- Transport double: the response the HTTP client hands back. `text` is
the raw body; `jsonBody` is what `response.json()` yields (`none` models
a JSON decode failure). -/
structure HttpResponse where
  status : Nat
  text : String
  jsonBody : Option Json

/-- The exceptions a push operation can raise. `valueError` is the
configuration error of source lines 129-130; `httpStatusError` is
`httpx.HTTPStatusError` from `raise_for_status()`, carrying the response
status code and body; `jsonDecodeError` is a failure of `response.json()`. -/
inductive PushError where
  | valueError : String → PushError
  | httpStatusError : Nat → String → PushError
  | jsonDecodeError : PushError

/-- `httpx.Response.raise_for_status()` raises exactly when the status
code is an error code (>= 400). -/
def httpIsError (status : Nat) : Bool := decide (400 ≤ status)

/-- Source line 130 / 208: the ValueError message. -/
def keyErrorMsg : String :=
  "Integration key must be set using set_key() or provided as parameter"

/-- What one execution of a push operation produces: the returned value
or raised exception, the HTTP requests it issued, and the global state
it leaves behind. -/
structure PushOutcome where
  result : Except PushError Json
  trace : List Request
  state : SdkState

/-- Source lines 86-160: `push_alert`. Resolve the effective key with
Python `or` truthiness; raise ValueError when it is `None` or empty;
prepend the user to the title when `_user is not None`; build the
payload; POST it once; `raise_for_status()`; return `response.json()`.
The function never assigns the globals, so the outgoing state is the
incoming one. -/
def push_alert (title_rule : String) (event_status : EventStatus)
    (alert_key : Option String) (description : Option String)
    (labels : Option (List (String × String))) (images : Option (List Json))
    (integration_key : Option String) (s : SdkState) (resp : HttpResponse) :
    PushOutcome :=
  match pyOrKey integration_key s.integration_key with
  | none => { result := .error (.valueError keyErrorMsg), trace := [], state := s }
  | some key =>
    if key = "" then
      { result := .error (.valueError keyErrorMsg), trace := [], state := s }
    else
      let payload := buildPayload (applyUser s.user title_rule) event_status
        alert_key description labels images
      let req : Request :=
        { url := BASE_URL
          params := [("integration_key", key)]
          headers := [("Content-Type", "application/json")]
          body := payload }
      if httpIsError resp.status then
        { result := .error (.httpStatusError resp.status resp.text), trace := [req], state := s }
      else
        match resp.jsonBody with
        | some j => { result := .ok j, trace := [req], state := s }
        | none => { result := .error .jsonDecodeError, trace := [req], state := s }

/-- Source lines 163-238: `push_alert_async`. Its body is a line-for-line
duplicate of `push_alert`'s (the only difference is the async HTTP
client), so its embedding transcribes the same steps. -/
def push_alert_async (title_rule : String) (event_status : EventStatus)
    (alert_key : Option String) (description : Option String)
    (labels : Option (List (String × String))) (images : Option (List Json))
    (integration_key : Option String) (s : SdkState) (resp : HttpResponse) :
    PushOutcome :=
  match pyOrKey integration_key s.integration_key with
  | none => { result := .error (.valueError keyErrorMsg), trace := [], state := s }
  | some key =>
    if key = "" then
      { result := .error (.valueError keyErrorMsg), trace := [], state := s }
    else
      let payload := buildPayload (applyUser s.user title_rule) event_status
        alert_key description labels images
      let req : Request :=
        { url := BASE_URL
          params := [("integration_key", key)]
          headers := [("Content-Type", "application/json")]
          body := payload }
      if httpIsError resp.status then
        { result := .error (.httpStatusError resp.status resp.text), trace := [req], state := s }
      else
        match resp.jsonBody with
        | some j => { result := .ok j, trace := [req], state := s }
        | none => { result := .error .jsonDecodeError, trace := [req], state := s }

/-- Field lookup in a JSON object's field list (Python `dict` access). -/
def lookupField (k : String) : List (String × Json) → Option Json
  | [] => none
  | (k', v) :: rest => if k' = k then some v else lookupField k rest

/-! ## Helper lemmas -/

/-- The payload's `title_rule` field always carries the (already
user-adjusted) title handed to the builder. -/
lemma lookupField_title_rule (t : String) (es : EventStatus) (ak d : Option String)
    (l : Option (List (String × String))) (im : Option (List Json)) :
    lookupField "title_rule" (buildPayload t es ak d l im) = some (Json.str t) := rfl

/-- The bodies of `push_alert_async` and `push_alert` are line-for-line
duplicates, so the embeddings are definitionally equal. -/
lemma pushAsyncEqPush (t : String) (es : EventStatus) (ak d : Option String)
    (l : Option (List (String × String))) (im : Option (List Json))
    (ov : Option String) (s : SdkState) (resp : HttpResponse) :
    push_alert_async t es ak d l im ov s resp = push_alert t es ak d l im ov s resp := rfl

/-- When the effective key resolves to a non-empty string, `push_alert`
builds the payload, issues the one request, and branches only on the
response. -/
lemma push_alert_of_key (t : String) (es : EventStatus) (ak d : Option String)
    (l : Option (List (String × String))) (im : Option (List Json))
    (ov : Option String) (s : SdkState) (resp : HttpResponse) (key : String)
    (hk : pyOrKey ov s.integration_key = some key) (hne : key ≠ "") :
    push_alert t es ak d l im ov s resp =
      (let req : Request :=
        { url := BASE_URL
          params := [("integration_key", key)]
          headers := [("Content-Type", "application/json")]
          body := buildPayload (applyUser s.user t) es ak d l im }
      if httpIsError resp.status then
        { result := .error (.httpStatusError resp.status resp.text), trace := [req], state := s }
      else
        match resp.jsonBody with
        | some j => { result := .ok j, trace := [req], state := s }
        | none => { result := .error .jsonDecodeError, trace := [req], state := s }) := by
  unfold push_alert
  rw [hk]
  simp [hne]

/-- Every request a push issues carries the payload built from the
user-adjusted title and the call's optional arguments. -/
lemma push_alert_trace_body (t : String) (es : EventStatus) (ak d : Option String)
    (l : Option (List (String × String))) (im : Option (List Json))
    (ov : Option String) (s : SdkState) (resp : HttpResponse) :
    ∀ req ∈ (push_alert t es ak d l im ov s resp).trace,
      req.body = buildPayload (applyUser s.user t) es ak d l im := by
  intro req hreq
  rcases hpk : pyOrKey ov s.integration_key with _ | key
  · simp [push_alert, hpk] at hreq
  · by_cases hk2 : key = ""
    · simp [push_alert, hpk, hk2] at hreq
    · rw [push_alert_of_key t es ak d l im ov s resp key hpk hk2] at hreq
      by_cases hst : httpIsError resp.status
      · simp [hst] at hreq
        subst hreq
        rfl
      · rcases hj : resp.jsonBody with _ | j <;>
          · simp [hst, hj] at hreq
            subst hreq
            rfl

/-! ## Claims -/

/-- C1: when no integration-key override is supplied and the process-wide
key is unset or empty, both `push_alert` and `push_alert_async` fail with
the ValueError configuration message and issue no HTTP request at all,
whatever the transport would have responded. -/
theorem C1_config_error_no_network (t : String) (es : EventStatus)
    (ak d : Option String) (l : Option (List (String × String)))
    (im : Option (List Json)) (s : SdkState) (resp : HttpResponse)
    (hkey : s.integration_key = none ∨ s.integration_key = some "") :
    (push_alert t es ak d l im none s resp).result = .error (.valueError keyErrorMsg) ∧
    (push_alert t es ak d l im none s resp).trace = [] ∧
    (push_alert_async t es ak d l im none s resp).result = .error (.valueError keyErrorMsg) ∧
    (push_alert_async t es ak d l im none s resp).trace = [] := by
  rcases hkey with h | h <;>
    simp [push_alert, push_alert_async, pyOrKey, h]

/-- Witness for C1 at the fresh state (no key, no user) and a transport
double that would have answered 200. -/
theorem C1_config_error_no_network_w :
    (SdkState.mk none none).integration_key = none ∧
    ((push_alert "t" .Warning none none none none none ⟨none, none⟩
        ⟨200, "", some Json.null⟩).result = .error (.valueError keyErrorMsg) ∧
      (push_alert "t" .Warning none none none none none ⟨none, none⟩
        ⟨200, "", some Json.null⟩).trace = [] ∧
      (push_alert_async "t" .Warning none none none none none ⟨none, none⟩
        ⟨200, "", some Json.null⟩).result = .error (.valueError keyErrorMsg) ∧
      (push_alert_async "t" .Warning none none none none none ⟨none, none⟩
        ⟨200, "", some Json.null⟩).trace = []) :=
  ⟨rfl, C1_config_error_no_network "t" .Warning none none none none ⟨none, none⟩
    ⟨200, "", some Json.null⟩ (Or.inl rfl)⟩

/-- C3: the built payload's keys are exactly `title_rule` and
`event_status` plus one entry per supplied optional argument, under the
wire names, each mapped to the supplied value; an absent optional
argument contributes no key (the lookup yields `none`, not a null), and
a present-but-empty value is still included (the lookup is `Option.map`
of the argument, so `some []` stays `some`). -/
theorem C3_payload_fields (t : String) (es : EventStatus) (ak d : Option String)
    (l : Option (List (String × String))) (im : Option (List Json)) :
    (buildPayload t es ak d l im).map Prod.fst =
      ["title_rule", "event_status"]
        ++ (match ak with | some _ => ["alert_key"] | none => [])
        ++ (match d with | some _ => ["description"] | none => [])
        ++ (match l with | some _ => ["labels"] | none => [])
        ++ (match im with | some _ => ["images"] | none => []) ∧
    lookupField "title_rule" (buildPayload t es ak d l im) = some (Json.str t) ∧
    lookupField "event_status" (buildPayload t es ak d l im) = some (Json.str es.wire) ∧
    lookupField "alert_key" (buildPayload t es ak d l im) = ak.map Json.str ∧
    lookupField "description" (buildPayload t es ak d l im) = d.map Json.str ∧
    lookupField "labels" (buildPayload t es ak d l im) =
      l.map (fun lab => Json.obj (lab.map (fun p => (p.1, Json.str p.2)))) ∧
    lookupField "images" (buildPayload t es ak d l im) = im.map Json.arr := by
  cases ak <;> cases d <;> cases l <;> cases im <;>
    exact ⟨rfl, rfl, rfl, rfl, rfl, rfl, rfl⟩

/-- C8: `push_alert_async` and `push_alert` implement the identical
contract — same effective key, same configuration-error condition, same
payload, same request and same result for the same arguments, state and
transport response; the embeddings are definitionally equal. -/
theorem C8_sync_async_identical (t : String) (es : EventStatus) (ak d : Option String)
    (l : Option (List (String × String))) (im : Option (List Json))
    (ov : Option String) (s : SdkState) (resp : HttpResponse) :
    push_alert_async t es ak d l im ov s resp = push_alert t es ak d l im ov s resp := rfl

/-- C9: neither push operation mutates the process identity store: on
every execution (success, configuration error, transport or decode
error) the state left behind is exactly the incoming one. -/
theorem C9_push_preserves_state (t : String) (es : EventStatus) (ak d : Option String)
    (l : Option (List (String × String))) (im : Option (List Json))
    (ov : Option String) (s : SdkState) (resp : HttpResponse) :
    (push_alert t es ak d l im ov s resp).state = s ∧
    (push_alert_async t es ak d l im ov s resp).state = s := by
  refine ⟨?_, ?_⟩
  · unfold push_alert
    repeat' split
    all_goals rfl
  · unfold push_alert_async
    repeat' split
    all_goals rfl

/-- C2: while a user prefix `u` is stored, every request a push issues
carries `title_rule = u ++ " " ++ t`; after `set_key` is called with the
key only (Python default `user=None`), the stored prefix is cleared and
every request a subsequent push issues carries the caller's `t`
unmodified. -/
theorem C2_user_title (u t k2 : String) (es : EventStatus) (ak d : Option String)
    (l : Option (List (String × String))) (im : Option (List Json))
    (ov ov2 : Option String) (s : SdkState) (resp resp2 : HttpResponse)
    (hu : s.user = some u) :
    (∀ req ∈ (push_alert t es ak d l im ov s resp).trace,
        lookupField "title_rule" req.body = some (Json.str (u ++ " " ++ t))) ∧
    get_user (set_key k2 none s) = none ∧
    (∀ req ∈ (push_alert t es ak d l im ov2 (set_key k2 none s) resp2).trace,
        lookupField "title_rule" req.body = some (Json.str t)) := by
  refine ⟨?_, rfl, ?_⟩
  · intro req hreq
    rw [push_alert_trace_body t es ak d l im ov s resp req hreq, hu]
    exact lookupField_title_rule (u ++ " " ++ t) es ak d l im
  · intro req hreq
    rw [push_alert_trace_body t es ak d l im ov2 (set_key k2 none s) resp2 req hreq]
    exact lookupField_title_rule t es ak d l im

/-- Witness for C2: prefix "admin", title "t"; the first push's one
request carries "admin t", and after `set_key "k2"` with no user the
push's one request carries "t". -/
theorem C2_user_title_w :
    (SdkState.mk (some "k") (some "admin")).user = some "admin" ∧
    ((∀ req ∈ (push_alert "t" .Info none none none none none
          ⟨some "k", some "admin"⟩ ⟨200, "", some Json.null⟩).trace,
        lookupField "title_rule" req.body = some (Json.str ("admin" ++ " " ++ "t"))) ∧
      get_user (set_key "k2" none ⟨some "k", some "admin"⟩) = none ∧
      (∀ req ∈ (push_alert "t" .Info none none none none none
          (set_key "k2" none ⟨some "k", some "admin"⟩) ⟨200, "", some Json.null⟩).trace,
        lookupField "title_rule" req.body = some (Json.str "t"))) :=
  ⟨rfl, C2_user_title "admin" "t" "k2" .Info none none none none none none
    ⟨some "k", some "admin"⟩ ⟨200, "", some Json.null⟩ ⟨200, "", some Json.null⟩ rfl⟩

/-- C4: whenever the effective key resolves to a non-empty `key`, the
push issues exactly one request: POST to the fixed URL with query
`integration_key=key`, header `Content-Type: application/json`, and the
built payload as body. -/
theorem C4_request_contract (t : String) (es : EventStatus) (ak d : Option String)
    (l : Option (List (String × String))) (im : Option (List Json))
    (ov : Option String) (s : SdkState) (resp : HttpResponse) (key : String)
    (hk : pyOrKey ov s.integration_key = some key) (hne : key ≠ "") :
    (push_alert t es ak d l im ov s resp).trace =
      [{ url := BASE_URL
         params := [("integration_key", key)]
         headers := [("Content-Type", "application/json")]
         body := buildPayload (applyUser s.user t) es ak d l im }] := by
  rw [push_alert_of_key t es ak d l im ov s resp key hk hne]
  by_cases hst : httpIsError resp.status
  · simp [hst]
  · rcases hj : resp.jsonBody with _ | j <;> simp [hst, hj]

/-- Witness for C4, the claim's concrete scenario: key "abc", no prefix,
title "disk full", status Warning, labels host=h1; the outgoing body is
exactly the three-field object and the query carries
integration_key=abc. -/
theorem C4_request_contract_w :
    pyOrKey none (SdkState.mk (some "abc") none).integration_key = some "abc" ∧
    ("abc" : String) ≠ "" ∧
    (push_alert "disk full" .Warning none none (some [("host", "h1")]) none none
        ⟨some "abc", none⟩ ⟨200, "", some Json.null⟩).trace =
      [{ url := "https://api.flashcat.cloud/event/push/alert/standard"
         params := [("integration_key", "abc")]
         headers := [("Content-Type", "application/json")]
         body := [("title_rule", Json.str "disk full"),
                  ("event_status", Json.str "Warning"),
                  ("labels", Json.obj [("host", Json.str "h1")])] }] :=
  ⟨rfl, by decide,
    C4_request_contract "disk full" .Warning none none (some [("host", "h1")]) none none
      ⟨some "abc", none⟩ ⟨200, "", some Json.null⟩ "abc" rfl (by decide)⟩

/-- C5 counterexample: with override `""` supplied and process-wide key
`"g"` set, the issued request carries `integration_key=g`, not the
override verbatim — Python `or` treats the empty override as absent, so
the claim fails for the empty string. -/
theorem C5_empty_override_counterexample :
    (push_alert "t" .Warning none none none none (some "") ⟨some "g", none⟩
        ⟨200, "", some Json.null⟩).trace.map Request.params =
      [[("integration_key", "g")]] ∧
    (push_alert "t" .Warning none none none none (some "") ⟨some "g", none⟩
        ⟨200, "", some Json.null⟩).trace.map Request.params ≠
      [[("integration_key", "")]] :=
  ⟨rfl, by decide⟩

/-- C5 amended: for every push call whose override is a NON-EMPTY string
`k`, the override is used verbatim as the effective key and the
process-wide key is ignored (result and trace do not depend on it), the
call never fails the configuration check, and the single issued request
carries `integration_key=k`; an empty-string override is instead treated
as absent and falls back to the process-wide key. -/
theorem C5_nonempty_override_used (t : String) (es : EventStatus) (ak d : Option String)
    (l : Option (List (String × String))) (im : Option (List Json)) (k : String)
    (hk : k ≠ "") (gk gk' u : Option String) (resp : HttpResponse) :
    (push_alert t es ak d l im (some k) ⟨gk, u⟩ resp).result =
      (push_alert t es ak d l im (some k) ⟨gk', u⟩ resp).result ∧
    (push_alert t es ak d l im (some k) ⟨gk, u⟩ resp).trace =
      (push_alert t es ak d l im (some k) ⟨gk', u⟩ resp).trace ∧
    (push_alert t es ak d l im (some k) ⟨gk, u⟩ resp).trace.map Request.params =
      [[("integration_key", k)]] := by
  have h1 : pyOrKey (some k) (SdkState.mk gk u).integration_key = some k := by
    simp [pyOrKey, hk]
  have h2 : pyOrKey (some k) (SdkState.mk gk' u).integration_key = some k := by
    simp [pyOrKey, hk]
  rw [push_alert_of_key t es ak d l im (some k) ⟨gk, u⟩ resp k h1 hk,
    push_alert_of_key t es ak d l im (some k) ⟨gk', u⟩ resp k h2 hk]
  by_cases hst : httpIsError resp.status
  · simp [hst]
  · rcases hj : resp.jsonBody with _ | j <;> simp [hst, hj]

/-- Witness for C5 amended: override "k1" against stored keys "g" and
none; same result and trace, and the request carries integration_key=k1. -/
theorem C5_nonempty_override_used_w :
    ("k1" : String) ≠ "" ∧
    ((push_alert "t" .Ok none none none none (some "k1") ⟨some "g", none⟩
        ⟨200, "", some Json.null⟩).result =
      (push_alert "t" .Ok none none none none (some "k1") ⟨none, none⟩
        ⟨200, "", some Json.null⟩).result ∧
    (push_alert "t" .Ok none none none none (some "k1") ⟨some "g", none⟩
        ⟨200, "", some Json.null⟩).trace =
      (push_alert "t" .Ok none none none none (some "k1") ⟨none, none⟩
        ⟨200, "", some Json.null⟩).trace ∧
    (push_alert "t" .Ok none none none none (some "k1") ⟨some "g", none⟩
        ⟨200, "", some Json.null⟩).trace.map Request.params =
      [[("integration_key", "k1")]]) :=
  ⟨by decide, C5_nonempty_override_used "t" .Ok none none none none "k1" (by decide)
    (some "g") none none ⟨200, "", some Json.null⟩⟩

/-- C6: on a transport response with status ≥ 400, both push operations
fail with the HTTP-status error carrying the status code and the raw
response body, and neither returns a decoded success result — the
conclusion holds for every `jsonBody` the response carries, so decoding
is never reached. -/
theorem C6_http_error_propagates (t : String) (es : EventStatus) (ak d : Option String)
    (l : Option (List (String × String))) (im : Option (List Json))
    (ov : Option String) (s : SdkState) (resp : HttpResponse) (key : String)
    (hk : pyOrKey ov s.integration_key = some key) (hne : key ≠ "")
    (hst : 400 ≤ resp.status) :
    (push_alert t es ak d l im ov s resp).result =
      .error (.httpStatusError resp.status resp.text) ∧
    (push_alert_async t es ak d l im ov s resp).result =
      .error (.httpStatusError resp.status resp.text) := by
  rw [pushAsyncEqPush, push_alert_of_key t es ak d l im ov s resp key hk hne]
  have h : httpIsError resp.status = true := by
    simpa [httpIsError] using hst
  simp [h]

/-- Witness for C6: status 500 with a decodable body; both operations
still fail with the 500 transport error. -/
theorem C6_http_error_propagates_w :
    pyOrKey none (SdkState.mk (some "k") none).integration_key = some "k" ∧
    ("k" : String) ≠ "" ∧ 400 ≤ 500 ∧
    ((push_alert "t" .Critical none none none none none ⟨some "k", none⟩
        ⟨500, "boom", some Json.null⟩).result =
      .error (.httpStatusError 500 "boom") ∧
    (push_alert_async "t" .Critical none none none none none ⟨some "k", none⟩
        ⟨500, "boom", some Json.null⟩).result =
      .error (.httpStatusError 500 "boom")) :=
  ⟨rfl, by decide, by decide,
    C6_http_error_propagates "t" .Critical none none none none none ⟨some "k", none⟩
      ⟨500, "boom", some Json.null⟩ "k" rfl (by decide) (by decide)⟩

/-- C7: on a success status (< 400) with a body that decodes to `j`, both
push operations return `j` verbatim — any JSON shape passes through with
no schema validation. -/
theorem C7_success_passthrough (t : String) (es : EventStatus) (ak d : Option String)
    (l : Option (List (String × String))) (im : Option (List Json))
    (ov : Option String) (s : SdkState) (resp : HttpResponse) (key : String) (j : Json)
    (hk : pyOrKey ov s.integration_key = some key) (hne : key ≠ "")
    (hst : resp.status < 400) (hj : resp.jsonBody = some j) :
    (push_alert t es ak d l im ov s resp).result = .ok j ∧
    (push_alert_async t es ak d l im ov s resp).result = .ok j := by
  rw [pushAsyncEqPush, push_alert_of_key t es ak d l im ov s resp key hk hne]
  have h : httpIsError resp.status = false := by
    simp [httpIsError]
    omega
  simp [h, hj]

/-- Witness for C7, the claim's concrete scenario: status 200 with body
`{"request_id":"r1","data":{"alert_key":"k1"}}`; the result is that very
object, whose request_id is "r1" and whose nested alert key is "k1". -/
theorem C7_success_passthrough_w :
    pyOrKey none (SdkState.mk (some "k") none).integration_key = some "k" ∧
    ("k" : String) ≠ "" ∧ 200 < 400 ∧
    ((push_alert "t" .Info none none none none none ⟨some "k", none⟩
        ⟨200, "",
          some (Json.obj [("request_id", Json.str "r1"),
            ("data", Json.obj [("alert_key", Json.str "k1")])])⟩).result =
      .ok (Json.obj [("request_id", Json.str "r1"),
            ("data", Json.obj [("alert_key", Json.str "k1")])]) ∧
    (push_alert_async "t" .Info none none none none none ⟨some "k", none⟩
        ⟨200, "",
          some (Json.obj [("request_id", Json.str "r1"),
            ("data", Json.obj [("alert_key", Json.str "k1")])])⟩).result =
      .ok (Json.obj [("request_id", Json.str "r1"),
            ("data", Json.obj [("alert_key", Json.str "k1")])])) ∧
    lookupField "request_id" [("request_id", Json.str "r1"),
        ("data", Json.obj [("alert_key", Json.str "k1")])] = some (Json.str "r1") ∧
    lookupField "alert_key" [("alert_key", Json.str "k1")] = some (Json.str "k1") :=
  ⟨rfl, by decide, by decide,
    C7_success_passthrough "t" .Info none none none none none ⟨some "k", none⟩
      ⟨200, "", some (Json.obj [("request_id", Json.str "r1"),
        ("data", Json.obj [("alert_key", Json.str "k1")])])⟩ "k"
      (Json.obj [("request_id", Json.str "r1"),
        ("data", Json.obj [("alert_key", Json.str "k1")])])
      rfl (by decide) (by decide) rfl,
    rfl, rfl⟩

/-- C10: after `set_key` with `user = ""`, the stored prefix counts as
present (the source checks `is not None`, not truthiness), so every
request a subsequent push issues carries `title_rule = " " ++ t`: an
empty-string prefix still injects a leading space. -/
theorem C10_empty_user_adds_space (k t : String) (es : EventStatus)
    (ak d : Option String) (l : Option (List (String × String)))
    (im : Option (List Json)) (ov : Option String) (s0 : SdkState)
    (resp : HttpResponse) :
    get_user (set_key k (some "") s0) = some "" ∧
    ∀ req ∈ (push_alert t es ak d l im ov (set_key k (some "") s0) resp).trace,
      lookupField "title_rule" req.body = some (Json.str (" " ++ t)) := by
  refine ⟨rfl, ?_⟩
  intro req hreq
  rw [push_alert_trace_body t es ak d l im ov (set_key k (some "") s0) resp req hreq]
  exact lookupField_title_rule ("" ++ " " ++ t) es ak d l im

/-- Witness for C10: after `set_key "k" (some "")`, the one request of a
push with title "t" carries title_rule " t". -/
theorem C10_empty_user_adds_space_w :
    get_user (set_key "k" (some "") ⟨none, none⟩) = some "" ∧
    ∀ req ∈ (push_alert "t" .Warning none none none none none
        (set_key "k" (some "") ⟨none, none⟩) ⟨200, "", some Json.null⟩).trace,
      lookupField "title_rule" req.body = some (Json.str (" " ++ "t")) :=
  C10_empty_user_adds_space "k" "t" .Warning none none none none none
    ⟨none, none⟩ ⟨200, "", some Json.null⟩

end FlashCall
